import Mathlib

/-!
Verification of the ATR decision-to-ledger execution pipeline.

Money amounts and prices are embedded as exact rationals (`ℚ`), share
quantities as integers (`ℤ`).  Python's fallible operations (methods that
raise `ValueError`) are embedded as `Option`-returning functions; a `none`
result corresponds to an exception.  Python's insertion-ordered `dict` of
positions is embedded as an association list whose update/erase operations
mirror `dict` assignment and `del`.
-/

/-- Python `int(x)` applied to a float/rational: truncation toward zero. -/
def pyInt (x : ℚ) : ℤ :=
  if 0 ≤ x then ⌊x⌋ else -⌊-x⌋

/-- Round a rational to the nearest integer, ties to the even integer
(Python's `round` uses banker's rounding). -/
def roundHalfEven (x : ℚ) : ℤ :=
  let f : ℤ := ⌊x⌋
  let r : ℚ := x - (f : ℚ)
  if r < 1/2 then f
  else if 1/2 < r then f + 1
  else if 2 ∣ f then f else f + 1

/-- Python `round(x, 2)`: round to two decimal places, ties to even. -/
def pyRound2 (x : ℚ) : ℚ :=
  (roundHalfEven (x * 100) : ℚ) / 100

/-- Python `str.lower()` on the ASCII action strings used by the system. -/
def pyLower (s : String) : String :=
  ⟨s.data.map Char.toLower⟩

/-! ## Ledger data model (src/core/portfolio.py) -/

/-- `Position` dataclass: one holding (portfolio.py lines 15-39). -/
structure Position where
  symbol : String
  quantity : ℤ
  avg_cost : ℚ
  current_price : ℚ
deriving DecidableEq, Repr

/-- `TradeRecord` dataclass (portfolio.py lines 42-53).  The wall-clock
timestamp is embedded as an abstract day index `day : ℕ`, which is all the
risk checks ever read from it (`datetime.date()` equality). -/
structure TradeRecord where
  day : ℕ
  symbol : String
  action : String
  quantity : ℤ
  price : ℚ
  commission : ℚ
  pnl : ℚ := 0
deriving DecidableEq, Repr

/-- The `Portfolio` ledger state (portfolio.py lines 56-65). -/
structure Portfolio where
  initial_capital : ℚ
  cash_balance : ℚ
  positions : List (String × Position)
  trade_history : List TradeRecord
deriving DecidableEq, Repr

/-- `Portfolio.initialize(initial_capital)` (portfolio.py lines 67-73). -/
def initPortfolio (c : ℚ) : Portfolio :=
  { initial_capital := c, cash_balance := c, positions := [], trade_history := [] }

/-- `self.positions.get(symbol)` / `symbol in self.positions` lookup. -/
def lookupPos (ps : List (String × Position)) (s : String) : Option Position :=
  (ps.find? (fun e => e.1 == s)).map Prod.snd

/-- `self.positions[symbol] = v` when the key is already present
(Python dict assignment replaces the value in place). -/
def setPos (ps : List (String × Position)) (s : String) (v : Position) :
    List (String × Position) :=
  ps.map (fun e => if e.1 == s then (s, v) else e)

/-- `del self.positions[symbol]`. -/
def erasePos (ps : List (String × Position)) (s : String) : List (String × Position) :=
  ps.filter (fun e => !(e.1 == s))

/-- `Portfolio._calculate_commission` (portfolio.py lines 281-285):
`max(quantity * 0.01, 1.0)`. -/
def calcCommission (quantity : ℤ) (_price : ℚ) : ℚ :=
  max ((quantity : ℚ) * (1/100)) 1

/-- `Portfolio._buy_stock` (portfolio.py lines 102-130).  Raising
`ValueError` on insufficient funds is embedded as `none`. -/
def buyStock (pf : Portfolio) (symbol : String) (quantity : ℤ) (price commission : ℚ) :
    Option Portfolio :=
  let total_cost := (quantity : ℚ) * price + commission
  if total_cost > pf.cash_balance then none
  else
    let newPositions :=
      match lookupPos pf.positions symbol with
      | some existing_pos =>
          let total_quantity := existing_pos.quantity + quantity
          let total_cost_basis :=
            (existing_pos.quantity : ℚ) * existing_pos.avg_cost + (quantity : ℚ) * price
          let new_avg_cost := total_cost_basis / (total_quantity : ℚ)
          setPos pf.positions symbol
            { existing_pos with quantity := total_quantity, avg_cost := new_avg_cost }
      | none =>
          pf.positions ++
            [(symbol, { symbol := symbol, quantity := quantity,
                        avg_cost := price, current_price := price })]
    some { pf with cash_balance := pf.cash_balance - total_cost, positions := newPositions }

/-- `self.trade_history[-1].pnl = realized_pnl`, guarded by
`if self.trade_history:` (portfolio.py lines 157-159). -/
def updateLastPnl : List TradeRecord → ℚ → List TradeRecord
  | [], _ => []
  | [r], v => [{ r with pnl := v }]
  | r :: rest, v => r :: updateLastPnl rest v

/-- `Portfolio._sell_stock` (portfolio.py lines 132-161).  The two
`ValueError`s (no position / insufficient quantity) are embedded as `none`. -/
def sellStock (pf : Portfolio) (symbol : String) (quantity : ℤ) (price commission : ℚ) :
    Option Portfolio :=
  match lookupPos pf.positions symbol with
  | none => none
  | some position =>
    if position.quantity < quantity then none
    else
      let realized_pnl := (price - position.avg_cost) * (quantity : ℚ) - commission
      let proceeds := (quantity : ℚ) * price - commission
      let newQuantity := position.quantity - quantity
      let newPositions :=
        if newQuantity = 0 then erasePos pf.positions symbol
        else setPos pf.positions symbol { position with quantity := newQuantity }
      some { pf with
              cash_balance := pf.cash_balance + proceeds,
              positions := newPositions,
              trade_history := updateLastPnl pf.trade_history realized_pnl }

/-- `Portfolio.update_position` (portfolio.py lines 75-100): compute the
commission, dispatch on the lower-cased action (anything that is neither
`"buy"` nor `"sell"` falls through), then append a fresh `TradeRecord`
whose `pnl` field is the default `0`.  The `day` argument stands for
`datetime.now()`. -/
def updatePosition (pf : Portfolio) (symbol action : String) (quantity : ℤ)
    (price : ℚ) (day : ℕ) : Option Portfolio :=
  let commission := calcCommission quantity price
  let afterAction : Option Portfolio :=
    if pyLower action = "buy" then buyStock pf symbol quantity price commission
    else if pyLower action = "sell" then sellStock pf symbol quantity price commission
    else some pf
  match afterAction with
  | none => none
  | some pf2 =>
      some { pf2 with
              trade_history := pf2.trade_history ++
                [{ day := day, symbol := symbol, action := action,
                   quantity := quantity, price := price, commission := commission }] }

/-- `positions_value` and `total_value` from `Portfolio.get_status`
(portfolio.py lines 170-198). -/
def totalValue (pf : Portfolio) : ℚ :=
  pf.cash_balance + (pf.positions.map (fun e => (e.2.quantity : ℚ) * e.2.current_price)).sum

/-- `unrealized_pnl` from `Portfolio.get_status`: sum of
`(current_price - avg_cost) * quantity` over all positions. -/
def unrealizedPnl (pf : Portfolio) : ℚ :=
  (pf.positions.map (fun e => (e.2.current_price - e.2.avg_cost) * (e.2.quantity : ℚ))).sum

/-! ## Risk manager (src/core/risk_manager.py) -/

/-- `TradingDecision` (trading_engine.py lines 21-31), restricted to the
fields the pipeline under verification reads. -/
structure Decision where
  symbol : String
  action : String
  quantity : ℤ
  price : Option ℚ := none
deriving DecidableEq, Repr

/-- `RiskCheckResult` dataclass (risk_manager.py lines 17-28). -/
structure RiskCheckResult where
  approved : Bool
  reason : String := ""
  adjusted_quantity : ℤ := 0
  risk_score : ℚ := 0
  warnings : List String := []
deriving DecidableEq, Repr

/-- The risk manager's environment: the correlation matrix and volatility
table that `initialize` fills from an external (random) source, embedded as
explicit inputs (per spec section 6 they are external lookups).  A fresh
manager has both empty, so `_get_correlation` returns `0` and
`_get_volatility` returns the default `0.3`. -/
structure RiskEnv where
  correlation_matrix : List ((String × String) × ℚ) := []
  volatility_data : List (String × ℚ) := []
deriving DecidableEq, Repr

/-- `RiskManager._get_correlation` (risk_manager.py lines 375-378). -/
def getCorrelation (env : RiskEnv) (s1 s2 : String) : ℚ :=
  ((env.correlation_matrix.find? (fun e => e.1 == (s1, s2))).map Prod.snd).getD 0

/-- `RiskManager._get_volatility` (risk_manager.py lines 380-382). -/
def getVolatility (env : RiskEnv) (s : String) : ℚ :=
  ((env.volatility_data.find? (fun e => e.1 == s)).map Prod.snd).getD (3/10)

/-- `decision.price or 100.0` (risk_manager.py lines 127 and 167): Python's
`or` falls back to `100.0` both when the price is `None` and when it is
`0.0` (which is falsy). -/
def estimatedPrice (price : Option ℚ) : ℚ :=
  match price with
  | none => 100
  | some p => if p = 0 then 100 else p

/-- `RiskManager._check_cash_availability` (risk_manager.py lines 121-146). -/
def checkCashAvailability (d : Decision) (pf : Portfolio) : RiskCheckResult :=
  if pyLower d.action ≠ "buy" then
    { approved := true, adjusted_quantity := d.quantity }
  else
    let estimated_price := estimatedPrice d.price
    let total_cost := (d.quantity : ℚ) * estimated_price * (101/100)
    if total_cost > pf.cash_balance then
      let max_quantity := pyInt (pf.cash_balance / (estimated_price * (101/100)))
      if max_quantity = 0 then
        { approved := false, reason := "insufficient cash" }
      else
        { approved := true, adjusted_quantity := max_quantity,
          warnings := ["insufficient cash, quantity adjusted"] }
    else
      { approved := true, adjusted_quantity := d.quantity }

/-- `Settings.MAX_POSITION_SIZE` (settings.py line 28): default `0.1`. -/
def maxPositionSize : ℚ := 1/10

/-- `Settings.RISK_MANAGEMENT['max_daily_loss']` (settings.py line 92). -/
def maxDailyLoss : ℚ := 5/100

/-- `Settings.RISK_MANAGEMENT['correlation_threshold']` (settings.py line 96). -/
def correlationThreshold : ℚ := 7/10

/-- `RiskManager._check_position_limits` (risk_manager.py lines 148-201). -/
def checkPositionLimits (d : Decision) (pf : Portfolio) : RiskCheckResult :=
  let current_quantity := ((lookupPos pf.positions d.symbol).map Position.quantity).getD 0
  let new_quantity :=
    if pyLower d.action = "buy" then current_quantity + d.quantity
    else current_quantity - d.quantity
  let total_value := totalValue pf
  let estimated_price := estimatedPrice d.price
  let position_value := (new_quantity : ℚ) * estimated_price
  let position_weight := if 0 < total_value then position_value / total_value else 0
  if position_weight > maxPositionSize then
    let max_value := total_value * maxPositionSize
    let max_quantity := pyInt (max_value / estimated_price)
    let adjusted_quantity :=
      if pyLower d.action = "buy" then max 0 (max_quantity - current_quantity)
      else d.quantity
    { approved := true, adjusted_quantity := adjusted_quantity,
      warnings := ["single-stock position limit exceeded, quantity adjusted"],
      risk_score := 3/10 }
  else
    { approved := true, adjusted_quantity := d.quantity }

/-- `Portfolio.get_trade_history` with the default `limit=100`
(portfolio.py lines 208-231): the last 100 trade records. -/
def tradeHistoryTail (pf : Portfolio) : List TradeRecord :=
  pf.trade_history.drop (pf.trade_history.length - 100)

/-- `RiskManager._check_daily_loss_limit` (risk_manager.py lines 203-240):
sum the `pnl` of today's records among the (at most 100) trades returned by
`get_trade_history`, add the unrealized P&L only when it is negative, and
reject when the absolute value of that total exceeds
`initial_capital * max_daily_loss`. -/
def checkDailyLossLimit (today : ℕ) (pf : Portfolio) : RiskCheckResult :=
  let today_pnl :=
    (((tradeHistoryTail pf).filter (fun r => r.day == today)).map TradeRecord.pnl).sum
  let unrealized_pnl := unrealizedPnl pf
  let total_daily_pnl := today_pnl + (if unrealized_pnl < 0 then unrealized_pnl else 0)
  let max_loss_amount := pf.initial_capital * maxDailyLoss
  if abs total_daily_pnl > max_loss_amount then
    { approved := false, reason := "daily loss limit exceeded" }
  else if abs total_daily_pnl > max_loss_amount * (8/10) then
    { approved := true, warnings := ["approaching daily loss limit"] }
  else
    { approved := true }

/-- `RiskManager._check_concentration_risk` (risk_manager.py lines 242-261). -/
def checkConcentrationRisk (pf : Portfolio) : RiskCheckResult :=
  if pf.positions.length < 5 then
    { approved := true, warnings := ["positions too concentrated"], risk_score := 2/10 }
  else
    { approved := true }

/-- `RiskManager._check_correlation_risk` (risk_manager.py lines 263-290). -/
def checkCorrelationRisk (env : RiskEnv) (d : Decision) (pf : Portfolio) : RiskCheckResult :=
  let high_correlation_count :=
    (pf.positions.filter
      (fun e => getCorrelation env d.symbol e.1 > correlationThreshold)).length
  if high_correlation_count > 3 then
    { approved := true, warnings := ["highly correlated with existing positions"],
      risk_score := 2/10 }
  else
    { approved := true }

/-- `RiskManager._check_volatility_risk` (risk_manager.py lines 292-308). -/
def checkVolatilityRisk (env : RiskEnv) (d : Decision) : RiskCheckResult :=
  let volatility := getVolatility env d.symbol
  if volatility > 4/10 then
    { approved := true, warnings := ["high volatility"], risk_score := 1/10 }
  else
    { approved := true }

/-- `RiskManager._calculate_optimal_position_size` (risk_manager.py lines
310-322): scale the ORIGINAL decision quantity by `max(0.5, 1 - risk_score)`
only when `risk_score > 0.5`, then floor the result at 1 share. -/
def calculateOptimalPositionSize (d : Decision) (risk_score : ℚ) : ℤ :=
  let base_quantity := d.quantity
  let adjusted_quantity :=
    if risk_score > 1/2 then
      pyInt ((base_quantity : ℚ) * max (1/2) (1 - risk_score))
    else base_quantity
  max 1 adjusted_quantity

/-- `RiskManager.check_trade_risk` (risk_manager.py lines 70-119).  Note the
early-return structure: a non-approved sub-check is returned as-is; the
`adjusted_quantity` of an approved cash or position check is NOT fed to the
later stages, which all start again from `decision.quantity`. -/
def checkTradeRisk (env : RiskEnv) (d : Decision) (pf : Portfolio) (today : ℕ) :
    RiskCheckResult :=
  let cash_check := checkCashAvailability d pf
  if cash_check.approved then
    let position_check := checkPositionLimits d pf
    if position_check.approved then
      let daily_loss_check := checkDailyLossLimit today pf
      if daily_loss_check.approved then
        let concentration_check := checkConcentrationRisk pf
        let correlation_check := checkCorrelationRisk env d pf
        let volatility_check := checkVolatilityRisk env d
        let risk_score := position_check.risk_score + concentration_check.risk_score +
          correlation_check.risk_score + volatility_check.risk_score
        let warnings := position_check.warnings ++ daily_loss_check.warnings ++
          concentration_check.warnings ++ correlation_check.warnings ++
          volatility_check.warnings
        let adjusted_quantity := calculateOptimalPositionSize d risk_score
        { approved := true, adjusted_quantity := adjusted_quantity,
          risk_score := risk_score, warnings := warnings, reason := "risk check passed" }
      else daily_loss_check
    else position_check
  else cash_check

/-! ## Order manager (src/core/order_manager.py) -/

/-- `OrderStatus` enum (order_manager.py lines 16-24). -/
inductive OrderStatus where
  | pending
  | submitted
  | partFilled
  | filled
  | cancelled
  | rejected
  | expired
deriving DecidableEq, Repr

/-- `OrderType` enum (order_manager.py lines 27-32). -/
inductive OrderKind where
  | market
  | limit
  | stop
  | stopLimit
deriving DecidableEq, Repr

/-- `Order` dataclass (order_manager.py lines 35-58), restricted to the
fields the execution pipeline reads and writes. -/
structure Order where
  symbol : String
  action : String
  quantity : ℤ
  order_type : OrderKind
  price : Option ℚ := none
  status : OrderStatus := .pending
  filled_quantity : ℤ := 0
  avg_fill_price : ℚ := 0
  commission : ℚ := 0
deriving DecidableEq, Repr

/-- `TradeResult` dataclass (trading_engine.py lines 34-42). -/
structure TradeResult where
  success : Bool
  executed_price : Option ℚ := none
  executed_quantity : ℤ := 0
  commission : ℚ := 0
  error_message : String := ""
deriving DecidableEq, Repr

/-- `OrderManager._calculate_commission` (order_manager.py lines 302-311):
`round(max(min_fee, min(quantity * 0.005, quantity * price * 0.005)), 2)`
with `min_fee = 1.0`. -/
def orderCommission (quantity : ℤ) (price : ℚ) : ℚ :=
  let per_share_fee := (quantity : ℚ) * (5/1000)
  let min_fee : ℚ := 1
  let max_fee := (quantity : ℚ) * price * (5/1000)
  pyRound2 (max min_fee (min per_share_fee max_fee))

/-- `OrderManager._create_order` (order_manager.py lines 127-152): a
decision with no limit price becomes a market order, otherwise a limit
order; the fresh order starts in `PENDING`. -/
def createOrder (d : Decision) : Order :=
  { symbol := d.symbol, action := d.action, quantity := d.quantity,
    order_type := if d.price = none then .market else .limit,
    price := d.price }

/-- `OrderManager._simulate_order_execution` (order_manager.py lines
173-249), parameterized by the quote `current_price` that
`_get_current_price` would return (`none` = quote unavailable).  Returns
the updated order together with the `TradeResult`. -/
def simulateOrderExecution (current_price : Option ℚ) (o : Order) :
    Order × TradeResult :=
  match current_price with
  | none =>
      ({ o with status := .rejected },
       { success := false, error_message := "no market price" })
  | some cp =>
      let fillAt : ℚ → Order × TradeResult := fun execution_price =>
        let commission := orderCommission o.quantity execution_price
        ({ o with status := .filled, filled_quantity := o.quantity,
                  avg_fill_price := execution_price, commission := commission },
         { success := true, executed_price := some execution_price,
           executed_quantity := o.quantity, commission := commission })
      match o.order_type with
      | .market =>
          let execution_price :=
            if pyLower o.action = "buy" then cp * (1001/1000) else cp * (999/1000)
          fillAt execution_price
      | .limit =>
          let lp := o.price.getD 0
          if pyLower o.action = "buy" ∧ cp ≤ lp then fillAt lp
          else if pyLower o.action = "sell" ∧ cp ≥ lp then fillAt lp
          else
            ({ o with status := .submitted },
             { success := true, executed_quantity := 0,
               error_message := "limit order submitted, awaiting fill" })
      | _ => fillAt cp

/-- The status effect of `OrderManager.cancel_order` (order_manager.py
lines 313-329): a no-op on `FILLED`, `CANCELLED`, `REJECTED` (the method
returns `False`); any other status becomes `CANCELLED`. -/
def cancelStatus (s : OrderStatus) : OrderStatus :=
  if s = .filled ∨ s = .cancelled ∨ s = .rejected then s else .cancelled

/-- The status effect on one order of `OrderManager.process_pending_orders`
(order_manager.py lines 403-423): only an order in `SUBMITTED` whose limit
price is crossed by the fresh quote (`canFill`) is filled via
`_fill_limit_order`; every other order is untouched. -/
def pendingFillStatus (canFill : Bool) (s : OrderStatus) : OrderStatus :=
  if s = .submitted ∧ canFill then .filled else s

/-- One externally triggered status-mutating operation on an existing
order: a cancel request, or one pass of the pending-order processor (with
the quote-crossing outcome for this order abstracted as a Boolean). -/
inductive OrderOp where
  | cancel
  | pendingFill (canFill : Bool)
deriving DecidableEq, Repr

def applyOrderOp (s : OrderStatus) : OrderOp → OrderStatus
  | .cancel => cancelStatus s
  | .pendingFill canFill => pendingFillStatus canFill s

/-- Run a sequence of status-mutating operations on an order's status. -/
def runOrderOps (s : OrderStatus) (ops : List OrderOp) : OrderStatus :=
  ops.foldl applyOrderOp s

/-- Terminal statuses per spec section 4.2. -/
def isTerminalStatus (s : OrderStatus) : Bool :=
  s = .filled ∨ s = .cancelled ∨ s = .rejected ∨ s = .expired

/-! ## Trading engine execution path (src/core/trading_engine.py) -/

/-- `TradingEngine.execute_trade` (trading_engine.py lines 113-173):
risk-check the decision, overwrite its quantity with the verdict's adjusted
quantity, place the order (simulated execution against the quote), and on
success apply the fill to the portfolio via `update_position`.  An
exception inside `update_position` (or the `None` executed price of a
queued limit order) is caught and turned into a failed `TradeResult` with
the portfolio unchanged. -/
def executeTrade (env : RiskEnv) (quote : Option ℚ) (pf : Portfolio)
    (d : Decision) (today : ℕ) : TradeResult × Portfolio :=
  let risk_check := checkTradeRisk env d pf today
  if risk_check.approved then
    let d' := { d with quantity := risk_check.adjusted_quantity }
    let order := createOrder d'
    let (_, result) := simulateOrderExecution quote order
    if result.success then
      match result.executed_price with
      | none => ({ success := false, error_message := "error executing trade" }, pf)
      | some ep =>
          match updatePosition pf d'.symbol d'.action result.executed_quantity ep today with
          | some pf' => (result, pf')
          | none => ({ success := false, error_message := "error executing trade" }, pf)
    else (result, pf)
  else ({ success := false, error_message := "rejected by risk management" }, pf)

/-! ## Fill sequences and the ledger invariant -/

/-- One requested fill: the arguments of a `Portfolio.update_position` call. -/
structure FillInput where
  symbol : String
  action : String
  quantity : ℤ
  price : ℚ
  day : ℕ := 0
deriving DecidableEq, Repr

/-- Apply a sequence of fills through `update_position`; `none` as soon as
one call raises. -/
def applyFills : Portfolio → List FillInput → Option Portfolio
  | pf, [] => some pf
  | pf, f :: rest =>
      match updatePosition pf f.symbol f.action f.quantity f.price f.day with
      | some pf' => applyFills pf' rest
      | none => none

/-- The ledger invariant claimed by the spec: non-negative cash and every
position present in the map holding a strictly positive quantity. -/
def LedgerInv (pf : Portfolio) : Prop :=
  0 ≤ pf.cash_balance ∧ ∀ e ∈ pf.positions, 0 < e.2.quantity

instance (pf : Portfolio) : Decidable (LedgerInv pf) := by
  unfold LedgerInv; infer_instance

/-- A fill with a positive quantity whose commission, when it is a sell,
does not exceed the gross proceeds. -/
def ValidFill (f : FillInput) : Prop :=
  0 < f.quantity ∧
    (pyLower f.action = "sell" → calcCommission f.quantity f.price ≤ (f.quantity : ℚ) * f.price)

instance (f : FillInput) : Decidable (ValidFill f) := by
  unfold ValidFill; infer_instance

/-! ## Helper lemmas about the position map -/

lemma pyLower_buy : pyLower "buy" = "buy" := by decide

lemma pyLower_sell : pyLower "sell" = "sell" := by decide

lemma pyLower_hold : pyLower "hold" = "hold" := by decide

lemma lookupPos_prop {ps : List (String × Position)} {s : String} {pos : Position}
    (P : Position → Prop) (h : lookupPos ps s = some pos)
    (hall : ∀ e ∈ ps, P e.2) : P pos := by
  unfold lookupPos at h
  cases hfind : ps.find? (fun e => e.1 == s) with
  | none => rw [hfind] at h; exact Option.noConfusion h
  | some e =>
      rw [hfind] at h
      simp only [Option.map_some'] at h
      obtain rfl : e.2 = pos := by injection h
      exact hall e (List.mem_of_find?_eq_some hfind)

lemma mem_setPos {ps : List (String × Position)} {s : String} {v : Position}
    {e : String × Position} (h : e ∈ setPos ps s v) : e = (s, v) ∨ e ∈ ps := by
  unfold setPos at h
  obtain ⟨a, ha, hae⟩ := List.mem_map.mp h
  by_cases hk : a.1 == s
  · left; rw [if_pos hk] at hae; exact hae.symm
  · right; rw [if_neg hk] at hae; exact hae ▸ ha

lemma mem_erasePos {ps : List (String × Position)} {s : String}
    {e : String × Position} (h : e ∈ erasePos ps s) : e ∈ ps :=
  (List.mem_filter.mp h).1

/-! ## Invariant preservation through `update_position` -/

lemma buyStock_inv {pf pf' : Portfolio} {sym : String} {q : ℤ} {p c : ℚ}
    (hinv : LedgerInv pf) (hq : 0 < q)
    (h : buyStock pf sym q p c = some pf') : LedgerInv pf' := by
  simp only [buyStock] at h
  split at h
  · exact Option.noConfusion h
  · next hcash =>
      injection h with h
      subst h
      refine ⟨?_, ?_⟩
      · have hle : (q : ℚ) * p + c ≤ pf.cash_balance := le_of_not_gt hcash
        simpa using sub_nonneg.mpr hle
      · intro e he
        simp only at he
        cases hlook : lookupPos pf.positions sym with
        | some existing_pos =>
            rw [hlook] at he
            simp only at he
            rcases mem_setPos he with rfl | hmem
            · have hex : 0 < existing_pos.quantity :=
                lookupPos_prop (fun pos => 0 < pos.quantity) hlook hinv.2
              simpa using add_pos hex hq
            · exact hinv.2 e hmem
        | none =>
            rw [hlook] at he
            simp only at he
            rcases List.mem_append.mp he with hmem | hnew
            · exact hinv.2 e hmem
            · simp only [List.mem_singleton] at hnew
              subst hnew
              simpa using hq

lemma sellStock_inv {pf pf' : Portfolio} {sym : String} {q : ℤ} {p c : ℚ}
    (hinv : LedgerInv pf) (hc : c ≤ (q : ℚ) * p)
    (h : sellStock pf sym q p c = some pf') : LedgerInv pf' := by
  simp only [sellStock] at h
  split at h
  · exact Option.noConfusion h
  · next position hlook =>
      split at h
      · exact Option.noConfusion h
      · next hqty =>
          injection h with h
          subst h
          refine ⟨?_, ?_⟩
          · have h1 : (0 : ℚ) ≤ (q : ℚ) * p - c := sub_nonneg.mpr hc
            have := add_nonneg hinv.1 h1
            simpa using this
          · intro e he
            simp only at he
            by_cases hz : position.quantity - q = 0
            · rw [if_pos hz] at he
              exact hinv.2 e (mem_erasePos he)
            · rw [if_neg hz] at he
              rcases mem_setPos he with rfl | hmem
              · have hle : q ≤ position.quantity := le_of_not_gt hqty
                simp only
                omega
              · exact hinv.2 e hmem

/-- One successful `update_position` call on a fill with positive quantity
(and, for sells, commission not exceeding gross proceeds) preserves the
ledger invariant. -/
lemma updatePosition_inv {pf pf' : Portfolio} {sym act : String} {q : ℤ} {p : ℚ} {day : ℕ}
    (hinv : LedgerInv pf) (hq : 0 < q)
    (hsell : pyLower act = "sell" → calcCommission q p ≤ (q : ℚ) * p)
    (h : updatePosition pf sym act q p day = some pf') : LedgerInv pf' := by
  simp only [updatePosition] at h
  by_cases hbuy : pyLower act = "buy"
  · rw [if_pos hbuy] at h
    cases hb : buyStock pf sym q p (calcCommission q p) with
    | none => rw [hb] at h; exact Option.noConfusion h
    | some pf2 =>
        rw [hb] at h
        simp only [Option.some.injEq] at h
        subst h
        have h2 := buyStock_inv hinv hq hb
        exact ⟨h2.1, h2.2⟩
  · rw [if_neg hbuy] at h
    by_cases hsl : pyLower act = "sell"
    · rw [if_pos hsl] at h
      cases hs : sellStock pf sym q p (calcCommission q p) with
      | none => rw [hs] at h; exact Option.noConfusion h
      | some pf2 =>
          rw [hs] at h
          simp only [Option.some.injEq] at h
          subst h
          have h2 := sellStock_inv hinv (hsell hsl) hs
          exact ⟨h2.1, h2.2⟩
    · rw [if_neg hsl] at h
      simp only [Option.some.injEq] at h
      subst h
      exact ⟨hinv.1, hinv.2⟩

lemma applyFills_inv {pf pf' : Portfolio} {fills : List FillInput}
    (hinv : LedgerInv pf) (hv : ∀ f ∈ fills, ValidFill f)
    (h : applyFills pf fills = some pf') : LedgerInv pf' := by
  induction fills generalizing pf with
  | nil => unfold applyFills at h; injection h with h; subst h; exact hinv
  | cons f rest ih =>
      unfold applyFills at h
      cases hstep : updatePosition pf f.symbol f.action f.quantity f.price f.day with
      | none => rw [hstep] at h; exact Option.noConfusion h
      | some pf2 =>
          rw [hstep] at h
          have hvf := hv f (List.mem_cons_self f rest)
          exact ih (updatePosition_inv hinv hvf.1 hvf.2 hstep)
            (fun g hg => hv g (List.mem_cons_of_mem f hg)) h

/-- Claim C1, corrected.  The claimed invariant fails as stated (see
`C1_counterexample`): a successful zero-quantity buy leaves a
quantity-`0` position in the map, and a successful sell whose commission
exceeds its gross proceeds drives `cash_balance` negative.  Amended: for
every sequence of successful `update_position` calls whose fills all have
positive quantity and whose sells all have gross proceeds at least the
commission, after every call `cash_balance ≥ 0` and every position present
in the map has `quantity > 0` (a symbol reaching quantity 0 is removed). -/
theorem C1_theorem (c0 : ℚ) (h0 : 0 ≤ c0) (fills : List FillInput)
    (hv : ∀ f ∈ fills, ValidFill f) {pf : Portfolio}
    (hrun : applyFills (initPortfolio c0) fills = some pf) : LedgerInv pf := by
  refine applyFills_inv ⟨h0, ?_⟩ hv hrun
  intro e he
  simp [initPortfolio] at he

theorem C1_witness :
    LedgerInv
      { initial_capital := 100, cash_balance := 89,
        positions := [("A", { symbol := "A", quantity := 1, avg_cost := 10,
                              current_price := 10 })],
        trade_history := [{ day := 0, symbol := "A", action := "buy", quantity := 1,
                            price := 10, commission := 1, pnl := 0 }] } :=
  C1_theorem 100 (by norm_num)
    [{ symbol := "A", action := "buy", quantity := 1, price := 10, day := 0 }]
    (by
      intro f hf
      simp only [List.mem_singleton] at hf
      subst hf
      refine ⟨by norm_num, ?_⟩
      intro hcontra
      exact absurd hcontra (by decide))
    (by norm_num +decide [applyFills, updatePosition, buyStock, calcCommission,
          initPortfolio, lookupPos, pyLower_buy])

/-- Run refuting claim C1 as stated: from cash `11`, buy 1 share of `"A"`
at `10` (commission 1, cash drops to 0), then sell it at price `1/2`
(commission 1 exceeds the 0.5 gross proceeds). -/
def c1runA : Option Portfolio :=
  (updatePosition (initPortfolio 11) "A" "buy" 1 10 0).bind
    (fun pf => updatePosition pf "A" "sell" 1 (1/2) 0)

/-- Run refuting claim C1 as stated: a successful buy of 0 shares of a new
symbol `"B"` creates a position entry with quantity 0. -/
def c1runB : Option Portfolio := updatePosition (initPortfolio 1000) "B" "buy" 0 5 0

/-- Counterexample to claim C1 as stated: both calls of `c1runA` succeed
yet leave `cash_balance = -1/2 < 0`, and the successful zero-quantity buy
of `c1runB` leaves symbol `"B"` present in the positions map with
`quantity = 0`. -/
theorem C1_counterexample :
    c1runA.map Portfolio.cash_balance = some (-(1/2)) ∧
    c1runB.map (fun pf => lookupPos pf.positions "B") =
      some (some { symbol := "B", quantity := 0, avg_cost := 5, current_price := 5 }) ∧
    (-(1/2) : ℚ) < 0 := by
  refine ⟨?_, ?_, by norm_num⟩
  · norm_num +decide [c1runA, updatePosition, buyStock, sellStock, calcCommission,
      initPortfolio, lookupPos, setPos, erasePos, updateLastPnl, pyLower_buy,
      pyLower_sell, Option.bind]
  · norm_num +decide [c1runB, updatePosition, buyStock, calcCommission,
      initPortfolio, lookupPos, pyLower_buy]

/-! ## C2: the cash-sufficiency shrink is computed but dropped -/

/-- The C2 scenario portfolio: a fresh ledger with $1,000 of cash. -/
def c2pf : Portfolio := initPortfolio 1000

/-- The C2 scenario decision: buy 100 units at a $20 limit price. -/
def c2d : Decision := { symbol := "XYZ", action := "buy", quantity := 100, price := some 20 }

/-- Claim C2 fails on the code: with cash $1,000 and a buy of 100 units at
price $20, `_check_cash_availability` itself does shrink the quantity to
`floor(1000 / (20 * 1.01)) = 49` (which satisfies `49 * 20 * 1.01 ≤ 1000`),
but `check_trade_risk` discards that adjustment — the verdict it returns is
approved with `adjusted_quantity = 100`, and `100 * 20 * 1.01 = 2020 > 1000`.
This evaluation theorem exhibits the divergence at the failing input. -/
theorem C2_theorem :
    (checkCashAvailability c2d c2pf).adjusted_quantity = 49 ∧
    ((49 : ℚ) * 20 * (101/100) ≤ c2pf.cash_balance) ∧
    (checkTradeRisk {} c2d c2pf 0).approved = true ∧
    (checkTradeRisk {} c2d c2pf 0).adjusted_quantity = 100 ∧
    ¬ ((100 : ℚ) * 20 * (101/100) ≤ c2pf.cash_balance) := by
  refine ⟨?_, ?_, ?_, ?_, ?_⟩ <;>
    norm_num +decide [checkTradeRisk, checkCashAvailability, checkPositionLimits,
      checkDailyLossLimit, tradeHistoryTail, checkConcentrationRisk, checkCorrelationRisk,
      checkVolatilityRisk, calculateOptimalPositionSize, estimatedPrice,
      getVolatility, getCorrelation, totalValue, unrealizedPnl, lookupPos,
      maxPositionSize, maxDailyLoss, correlationThreshold, pyInt, c2pf, c2d,
      initPortfolio, pyLower_buy]

/-! ## C3: realized P&L lands on the previous trade's record -/

/-- The C3 run: buy 5 shares of `"A"` at $10 (commission 1), then sell all
5 at $12 (commission 1, realized P&L `(12 - 10) * 5 - 1 = 9`). -/
def c3run : Option Portfolio :=
  (updatePosition (initPortfolio 100) "A" "buy" 5 10 0).bind
    (fun pf => updatePosition pf "A" "sell" 5 12 0)

/-- Claim C3 is right and the code is wrong: on the C3 run the cash credit
(`100 - 51 + 59 = 108`) and the position removal are as claimed, but the
realized P&L `9` of the sale is written onto the PRECEDING buy record
(`trade_history[-1]` at the moment `_sell_stock` runs, before the sale's
own record is appended), and the sale's own record carries `pnl = 0`. -/
theorem C3_theorem :
    c3run.map (fun pf => pf.trade_history.map TradeRecord.pnl) = some [9, 0] ∧
    c3run.map (fun pf => (pf.trade_history.map TradeRecord.action)) =
      some ["buy", "sell"] ∧
    c3run.map Portfolio.cash_balance = some 108 ∧
    c3run.map (fun pf => lookupPos pf.positions "A") = some none := by
  refine ⟨?_, ?_, ?_, ?_⟩ <;>
    norm_num +decide [c3run, updatePosition, buyStock, sellStock, calcCommission,
      initPortfolio, lookupPos, setPos, erasePos, updateLastPnl, pyLower_buy,
      pyLower_sell, Option.bind]

/-! ## C4: the two commission formulas disagree -/

/-- Counterexample to claim C4 as stated: for `quantity = 300`,
`price = 100`, the order-execution path charges
`round(max(1, min(300 * 0.005, 300 * 100 * 0.005)), 2) = 1.5` while the
ledger path charges `max(300 * 0.01, 1) = 3`; the two are not equal, so no
single canonical commission function is used end-to-end. -/
theorem C4_counterexample :
    orderCommission 300 100 = 3/2 ∧ calcCommission 300 100 = 3 ∧
    (3/2 : ℚ) ≠ 3 := by
  refine ⟨?_, ?_, by norm_num⟩
  · norm_num [orderCommission, pyRound2, roundHalfEven]
  · norm_num [calcCommission]

/-- Claim C4, corrected.  The order path (`OrderManager._calculate_commission`)
and the ledger path (`Portfolio._calculate_commission`) implement different
formulas that disagree in general (see `C4_counterexample`).  Amended: the
two paths agree (both charging the $1 minimum fee) exactly on the common
regime `0 ≤ quantity ≤ 100` with `price ≥ 1`, where the order path's
per-share fee `0.005 * q` stays at or below 1 and the ledger path's
per-share fee `0.01 * q` stays at or below 1. -/
theorem C4_theorem (q : ℤ) (p : ℚ) (h0 : 0 ≤ q) (h1 : q ≤ 100) (h2 : 1 ≤ p) :
    orderCommission q p = calcCommission q p := by
  have hq0 : (0 : ℚ) ≤ (q : ℚ) := by exact_mod_cast h0
  have hq100 : (q : ℚ) ≤ 100 := by exact_mod_cast h1
  have hmin : min ((q : ℚ) * (5/1000)) ((q : ℚ) * p * (5/1000)) = (q : ℚ) * (5/1000) :=
    min_eq_left (by nlinarith)
  have hmax1 : max (1 : ℚ) ((q : ℚ) * (5/1000)) = 1 := max_eq_left (by nlinarith)
  have hmax2 : max ((q : ℚ) * (1/100)) 1 = 1 := max_eq_right (by nlinarith)
  simp only [orderCommission, calcCommission]
  rw [hmin, hmax1, hmax2]
  norm_num [pyRound2, roundHalfEven]

theorem C4_witness :
    (0 : ℤ) ≤ 50 ∧ (50 : ℤ) ≤ 100 ∧ (1 : ℚ) ≤ 2 ∧
      orderCommission 50 2 = calcCommission 50 2 :=
  ⟨by norm_num, by norm_num, by norm_num,
    C4_theorem 50 2 (by norm_num) (by norm_num) (by norm_num)⟩

/-! ## C5: the daily-loss check rejects large profits too -/

/-- The C5 scenario: a ledger with initial capital $10,000, no open
positions (so unrealized P&L is 0), and one trade today carrying a
realized P&L of +$1,000 — a profitable day. -/
def c5pf : Portfolio :=
  { initial_capital := 10000, cash_balance := 10900, positions := [],
    trade_history := [{ day := 0, symbol := "A", action := "sell", quantity := 5,
                        price := 12, commission := 1, pnl := 1000 }] }

/-- Claim C5 is right and the code is wrong: `_check_daily_loss_limit`
compares `abs(total_daily_pnl)` against the loss cap, so a day whose net
result is a PROFIT of $1,000 (today's realized P&L sum is `+1000`, the
unrealized P&L is `0`, and the cap is `10000 * 0.05 = 500`) is rejected,
although the claim (and the check's own name and message) says only losses
beyond the cap reject. -/
theorem C5_theorem :
    (((tradeHistoryTail c5pf).filter (fun r => r.day == 0)).map TradeRecord.pnl).sum = 1000 ∧
    unrealizedPnl c5pf = 0 ∧
    c5pf.initial_capital * maxDailyLoss = 500 ∧
    (checkDailyLossLimit 0 c5pf).approved = false := by
  refine ⟨?_, ?_, ?_, ?_⟩ <;>
    norm_num +decide [checkDailyLossLimit, tradeHistoryTail, tradeHistoryTail, unrealizedPnl, maxDailyLoss, c5pf]

/-! ## C6: risk-score scaling only fires above 0.5 and starts from the
original quantity -/

/-- The C6 scenario: a fresh $1,000,000 ledger and a small buy of 10 units
at $20, so no earlier check shrinks anything; the accumulated risk score is
`0.2` (concentration warning only). -/
def c6pf : Portfolio := initPortfolio 1000000

def c6d : Decision := { symbol := "XYZ", action := "buy", quantity := 10, price := some 20 }

/-- Counterexample to claim C6 as stated: at the C6 scenario the verdict's
risk score is `1/5` and its adjusted quantity is `10`, but the claimed
formula — the earlier-checks quantity (here `10`, nothing was reduced)
scaled by `max(0.5, 1 - 0.2) = 0.8` — yields `int(10 * 0.8) = 8 ≠ 10`:
the code applies no scaling at all when the risk score is `≤ 0.5`. -/
theorem C6_counterexample :
    (checkTradeRisk {} c6d c6pf 0).approved = true ∧
    (checkTradeRisk {} c6d c6pf 0).risk_score = 1/5 ∧
    (checkTradeRisk {} c6d c6pf 0).adjusted_quantity = 10 ∧
    max 1 (pyInt ((10 : ℚ) * max (1/2) (1 - 1/5))) = 8 := by
  refine ⟨?_, ?_, ?_, ?_⟩ <;>
    norm_num +decide [checkTradeRisk, checkCashAvailability, checkPositionLimits,
      checkDailyLossLimit, tradeHistoryTail, checkConcentrationRisk, checkCorrelationRisk,
      checkVolatilityRisk, calculateOptimalPositionSize, estimatedPrice,
      getVolatility, getCorrelation, totalValue, unrealizedPnl, lookupPos,
      maxPositionSize, maxDailyLoss, correlationThreshold, pyInt, c6pf, c6d,
      initPortfolio, pyLower_buy]

/-- Claim C6, corrected.  Amended: whenever `check_trade_risk` approves, the
verdict's adjusted quantity is `max(1, int(q * max(0.5, 1 - r)))` if the
accumulated risk score `r` exceeds `0.5` and `max(1, q)` otherwise, where
`q` is the ORIGINAL decision quantity — the quantities computed by the
earlier cash-sufficiency and position-size checks are not propagated, and
no scaling happens at all for risk scores `≤ 0.5`. -/
theorem C6_theorem (env : RiskEnv) (d : Decision) (pf : Portfolio) (today : ℕ)
    (h : (checkTradeRisk env d pf today).approved = true) :
    (checkTradeRisk env d pf today).adjusted_quantity =
      max 1 (if (checkTradeRisk env d pf today).risk_score > 1/2 then
               pyInt ((d.quantity : ℚ) *
                 max (1/2) (1 - (checkTradeRisk env d pf today).risk_score))
             else d.quantity) := by
  simp only [checkTradeRisk] at h ⊢
  by_cases h1 : (checkCashAvailability d pf).approved
  · rw [if_pos h1] at h ⊢
    by_cases h2 : (checkPositionLimits d pf).approved
    · rw [if_pos h2] at h ⊢
      by_cases h3 : (checkDailyLossLimit today pf).approved
      · rw [if_pos h3] at h ⊢
        simp only [calculateOptimalPositionSize]
      · rw [if_neg h3] at h
        exact absurd h h3
    · rw [if_neg h2] at h
      exact absurd h h2
  · rw [if_neg h1] at h
    exact absurd h h1

theorem C6_witness :
    (checkTradeRisk {} { symbol := "W", action := "buy", quantity := 7,
                         price := some 10 } (initPortfolio 1000000) 0).adjusted_quantity =
      max 1 (if (checkTradeRisk {} { symbol := "W", action := "buy", quantity := 7,
                                     price := some 10 } (initPortfolio 1000000) 0).risk_score
                  > 1/2 then
               pyInt ((7 : ℚ) * max (1/2)
                 (1 - (checkTradeRisk {} { symbol := "W", action := "buy", quantity := 7,
                                           price := some 10 } (initPortfolio 1000000) 0).risk_score))
             else 7) :=
  C6_theorem {} { symbol := "W", action := "buy", quantity := 7, price := some 10 }
    (initPortfolio 1000000) 0
    (by norm_num +decide [checkTradeRisk, checkCashAvailability, checkPositionLimits,
          checkDailyLossLimit, tradeHistoryTail, checkConcentrationRisk, checkCorrelationRisk,
          checkVolatilityRisk, calculateOptimalPositionSize, estimatedPrice,
          getVolatility, getCorrelation, totalValue, unrealizedPnl, lookupPos,
          maxPositionSize, maxDailyLoss, correlationThreshold, pyInt,
          initPortfolio, pyLower_buy])

/-! ## C7: market orders fill completely and immediately -/

/-- The C7 scenario decision: a 10-share buy with no limit price. -/
def c7d : Decision := { symbol := "AAPL", action := "buy", quantity := 10, price := none }

/-- The C7 scenario run: execute the market buy against a $150 quote on a
fresh $10,000 ledger. -/
def c7res : TradeResult × Portfolio :=
  executeTrade {} (some 150) (initPortfolio 10000) c7d 0

/-- Claim C7, confirmed.  A market order with an available quote always
fills completely and immediately in one step: status `FILLED`, filled
quantity equal to the requested quantity, and fill price `quote * 1.001`
for a buy and `quote * 0.999` for a sell.  In the concrete scenario the
10-share buy at quote $150 fills at $150.15 with commission $1, leaving
cash `10000 - (10 * 150.15 + 1) = 8497.50` and a 10-share position at
average cost 150.15. -/
theorem C7_theorem :
    (∀ (o : Order) (p : ℚ), o.order_type = .market → pyLower o.action = "buy" →
       (simulateOrderExecution (some p) o).1.status = .filled ∧
       (simulateOrderExecution (some p) o).1.filled_quantity = o.quantity ∧
       (simulateOrderExecution (some p) o).1.avg_fill_price = p * (1001/1000) ∧
       (simulateOrderExecution (some p) o).2.success = true ∧
       (simulateOrderExecution (some p) o).2.executed_quantity = o.quantity ∧
       (simulateOrderExecution (some p) o).2.executed_price = some (p * (1001/1000))) ∧
    (∀ (o : Order) (p : ℚ), o.order_type = .market → pyLower o.action = "sell" →
       (simulateOrderExecution (some p) o).1.status = .filled ∧
       (simulateOrderExecution (some p) o).1.filled_quantity = o.quantity ∧
       (simulateOrderExecution (some p) o).1.avg_fill_price = p * (999/1000) ∧
       (simulateOrderExecution (some p) o).2.success = true ∧
       (simulateOrderExecution (some p) o).2.executed_quantity = o.quantity ∧
       (simulateOrderExecution (some p) o).2.executed_price = some (p * (999/1000))) ∧
    ((3003/20 : ℚ) = 150 * (1001/1000) ∧
     c7res.1.success = true ∧
     c7res.1.executed_quantity = 10 ∧
     c7res.1.executed_price = some (3003/20) ∧
     c7res.1.commission = 1 ∧
     c7res.2.cash_balance = 16995/2 ∧
     (16995/2 : ℚ) = 10000 - (10 * (3003/20) + 1) ∧
     lookupPos c7res.2.positions "AAPL" =
       some { symbol := "AAPL", quantity := 10, avg_cost := 3003/20,
              current_price := 3003/20 }) := by
  refine ⟨?_, ?_, ?_⟩
  · intro o p hm hb
    simp [simulateOrderExecution, hm, hb]
  · intro o p hm hs
    have hnb : ¬ (pyLower o.action = "buy") := by rw [hs]; decide
    simp [simulateOrderExecution, hm, hnb]
  · refine ⟨by norm_num, ?_, ?_, ?_, ?_, ?_, by norm_num, ?_⟩ <;>
      norm_num +decide [c7res, c7d, executeTrade, createOrder, simulateOrderExecution,
        orderCommission, pyRound2, roundHalfEven, checkTradeRisk,
        checkCashAvailability, checkPositionLimits, checkDailyLossLimit, tradeHistoryTail,
        checkConcentrationRisk, checkCorrelationRisk, checkVolatilityRisk,
        calculateOptimalPositionSize, estimatedPrice, getVolatility, getCorrelation,
        totalValue, unrealizedPnl, lookupPos, maxPositionSize, maxDailyLoss,
        correlationThreshold, pyInt, initPortfolio, updatePosition, buyStock,
        calcCommission, setPos, erasePos, pyLower_buy]

/-- A concrete market buy order used to instantiate `C7_theorem`. -/
def c7buyOrder : Order :=
  { symbol := "M", action := "buy", quantity := 3, order_type := .market }

/-- A concrete market sell order used to instantiate `C7_theorem`. -/
def c7sellOrder : Order :=
  { symbol := "M", action := "sell", quantity := 3, order_type := .market }

theorem C7_witness :
    (simulateOrderExecution (some 200) c7buyOrder).1.avg_fill_price = 200 * (1001/1000) ∧
    (simulateOrderExecution (some 200) c7sellOrder).1.avg_fill_price = 200 * (999/1000) :=
  ⟨(C7_theorem.1 c7buyOrder 200 rfl (by decide)).2.2.1,
   (C7_theorem.2.1 c7sellOrder 200 rfl (by decide)).2.2.1⟩

/-! ## C8: terminal order statuses are never left -/

lemma simulate_status_cases (q : Option ℚ) (o : Order) :
    (simulateOrderExecution q o).1.status = .rejected ∨
    (simulateOrderExecution q o).1.status = .filled ∨
    (simulateOrderExecution q o).1.status = .submitted := by
  cases q with
  | none => simp [simulateOrderExecution]
  | some cp =>
      cases ht : o.order_type with
      | market => simp [simulateOrderExecution, ht]
      | limit =>
          simp only [simulateOrderExecution, ht]
          split
          · simp
          · split <;> simp
      | stop => simp [simulateOrderExecution, ht]
      | stopLimit => simp [simulateOrderExecution, ht]

lemma applyOrderOp_ne_expired {s : OrderStatus} (h : s ≠ .expired) (op : OrderOp) :
    applyOrderOp s op ≠ .expired := by
  cases op with
  | cancel =>
      simp only [applyOrderOp, cancelStatus]
      split
      · exact h
      · simp
  | pendingFill canFill =>
      simp only [applyOrderOp, pendingFillStatus]
      split
      · simp
      · exact h

lemma runOrderOps_ne_expired {s : OrderStatus} (h : s ≠ .expired) (ops : List OrderOp) :
    runOrderOps s ops ≠ .expired := by
  induction ops generalizing s with
  | nil => exact h
  | cons op rest ih => exact ih (applyOrderOp_ne_expired h op)

lemma applyOrderOp_fixed {s : OrderStatus} (hterm : isTerminalStatus s = true)
    (hne : s ≠ .expired) (op : OrderOp) : applyOrderOp s op = s := by
  cases s <;> simp [isTerminalStatus] at hterm hne ⊢ <;>
    cases op <;> simp [applyOrderOp, cancelStatus, pendingFillStatus]

lemma runOrderOps_fixed {s : OrderStatus} (hterm : isTerminalStatus s = true)
    (hne : s ≠ .expired) (ops : List OrderOp) : runOrderOps s ops = s := by
  induction ops with
  | nil => rfl
  | cons op rest ih =>
      show runOrderOps (applyOrderOp s op) rest = s
      rw [applyOrderOp_fixed hterm hne op]
      exact ih

/-- Claim C8, confirmed.  An order's status after submission is one of
`FILLED`, `SUBMITTED`, `REJECTED` (never `EXPIRED`, which no code path
produces); once the status observed after any sequence of cancel /
pending-order-processing operations is terminal, every further sequence of
such operations leaves it unchanged — no terminal status is ever followed
by a different status, in particular never by a non-terminal one. -/
theorem C8_theorem (o : Order) (q : Option ℚ) (l1 l2 : List OrderOp)
    (hterm : isTerminalStatus
      (runOrderOps (simulateOrderExecution q o).1.status l1) = true) :
    runOrderOps (simulateOrderExecution q o).1.status (l1 ++ l2) =
      runOrderOps (simulateOrderExecution q o).1.status l1 := by
  have hne : (simulateOrderExecution q o).1.status ≠ .expired := by
    rcases simulate_status_cases q o with h | h | h <;> rw [h] <;> decide
  have hne1 : runOrderOps (simulateOrderExecution q o).1.status l1 ≠ .expired :=
    runOrderOps_ne_expired hne l1
  show List.foldl applyOrderOp _ (l1 ++ l2) = _
  rw [List.foldl_append]
  exact runOrderOps_fixed hterm hne1 l2

theorem C8_witness :
    runOrderOps (simulateOrderExecution (some 100) c7buyOrder).1.status
        ([] ++ [OrderOp.cancel, OrderOp.pendingFill true]) =
      runOrderOps (simulateOrderExecution (some 100) c7buyOrder).1.status [] :=
  C8_theorem c7buyOrder (some 100) [] [OrderOp.cancel, OrderOp.pendingFill true]
    (by decide)

/-! ## C10: a non-buy non-sell action only appends a trade record -/

/-- Claim C10, confirmed.  For any action whose lower-casing is neither
`"buy"` nor `"sell"` (e.g. `"hold"`), `update_position` leaves the cash
balance and the positions map unchanged and appends exactly one new
`TradeRecord` carrying the computed commission (and `pnl = 0`). -/
theorem C10_theorem (pf : Portfolio) (sym act : String) (q : ℤ) (p : ℚ) (day : ℕ)
    (h1 : pyLower act ≠ "buy") (h2 : pyLower act ≠ "sell") :
    updatePosition pf sym act q p day =
      some { pf with
              trade_history := pf.trade_history ++
                [{ day := day, symbol := sym, action := act, quantity := q,
                   price := p, commission := calcCommission q p, pnl := 0 }] } := by
  simp only [updatePosition, if_neg h1, if_neg h2]

theorem C10_witness :
    updatePosition (initPortfolio 5) "A" "hold" 2 3 1 =
      some { initial_capital := 5, cash_balance := 5, positions := [],
             trade_history := [{ day := 1, symbol := "A", action := "hold",
                                 quantity := 2, price := 3,
                                 commission := calcCommission 2 3, pnl := 0 }] } :=
  C10_theorem (initPortfolio 5) "A" "hold" 2 3 1 (by decide) (by decide)
